import Mathlib

/-!
Shallow embedding of the concurrent test-dispatch orchestrator
(`test_runner.py`, `database.py`, `main.py`).

Timestamps are opaque data carrying their ISO rendering; wall-clock
readings and the random draws of each unit (latency window, 10 percent
failure draw) as well as sink fault injection are supplied by a per-unit
oracle, so every function of the source becomes a pure function of its
inputs, its oracle and the sink state.
-/

namespace Framework

/-- A `datetime` value; `iso` is what `isoformat()` returns. -/
structure Timestamp where
  iso : String
deriving DecidableEq, Repr

/-- One row of the PostgreSQL `devices` table. -/
structure DeviceRow where
  device_id : String
  status : String
  updated_at : Timestamp
deriving DecidableEq, Repr

/-- One row of the PostgreSQL `tests` table. -/
structure TestsRow where
  test_name : String
  created_at : Timestamp
deriving DecidableEq, Repr

/-- One row of the PostgreSQL `results` table. -/
structure ResultsRow where
  test_name : String
  device_id : String
  status : String
  duration_sec : Int
  error : String
  timestamp : Timestamp
deriving DecidableEq, Repr

/-- One document of the MongoDB `test_logs` collection (`MongoDB.write_log`). -/
structure MongoDoc where
  test_name : String
  device_id : String
  status : String
  duration : Int
  error : String
  timestamp : Timestamp
deriving DecidableEq, Repr

/-- One document indexed by `ElasticsearchDB.index_log`. -/
structure EsDoc where
  test_name : String
  device_id : String
  status : String
  duration : Int
  error : String
  stack_trace : String
  log_level : String
  timestamp : String
deriving DecidableEq, Repr

/-- Model of `PostgresDB.update_device_status`: SQL UPDATE of the matching row only
(no-op when the device id is absent, never inserts). -/
def update_device_status (devs : List DeviceRow) (id st : String) (now : Timestamp) :
    List DeviceRow :=
  devs.map (fun r => if r.device_id == id then { device_id := r.device_id, status := st, updated_at := now } else r)

/-- Model of `PostgresDB.register_device`: upsert (INSERT ... ON CONFLICT DO UPDATE). -/
def register_device (devs : List DeviceRow) (id st : String) (now : Timestamp) :
    List DeviceRow :=
  if devs.any (fun r => r.device_id == id) then
    devs.map (fun r => if r.device_id == id then { device_id := r.device_id, status := st, updated_at := now } else r)
  else
    devs ++ [{ device_id := id, status := st, updated_at := now }]

/-- Model of `MongoDB.write_log`: the document inserted for one execution. -/
def write_log (test_name device_id status : String) (duration : Int) (error : String)
    (timestamp : Timestamp) : MongoDoc :=
  { test_name := test_name, device_id := device_id, status := status,
    duration := duration, error := error, timestamp := timestamp }

/-- Model of `ElasticsearchDB.index_log`: the document indexed for one execution,
with the derived `log_level` field and the ISO-rendered timestamp. -/
def index_log (test_name device_id status : String) (duration : Int)
    (error stack_trace : String) (timestamp : Timestamp) : EsDoc :=
  { test_name := test_name, device_id := device_id, status := status,
    duration := duration, error := error, stack_trace := stack_trace,
    log_level := if status == "FAIL" then "ERROR" else "INFO",
    timestamp := timestamp.iso }

/-- The three test classes of `test_runner.py`. -/
inductive TestClass
  | PerformanceTest
  | ConnectivityTest
  | StabilityTest
deriving DecidableEq, Repr

/-- The class name, used as `test_name` in the dict a successful `run` returns. -/
def TestClass.className : TestClass → String
  | .PerformanceTest => "PerformanceTest"
  | .ConnectivityTest => "ConnectivityTest"
  | .StabilityTest => "StabilityTest"

/-- The message of the exception each class raises on its 10 percent draw. -/
def TestClass.failureMessage : TestClass → String
  | .PerformanceTest => "Performance drop detected in memory profile"
  | .ConnectivityTest => "Wireless AP connection lost randomly"
  | .StabilityTest => "Unexpected springboard crash on iOS device"

/-- The dict returned by a successful `run` (its `duration` key is added later
by the caller). -/
structure PassPayload where
  status : String
  device_id : String
  test_name : String
deriving DecidableEq, Repr

/-- The body of the `run` method of each test: either raises its class-specific error
(when the oracle says the 10 percent draw fired) or returns the PASS dict. -/
def TestClass.run (t : TestClass) (device_id : String) (fail : Bool) :
    Except String PassPayload :=
  if fail then Except.error t.failureMessage
  else Except.ok { status := "PASS", device_id := device_id, test_name := t.className }

/-- Python `str.lower()` character-wise, as `test_name.lower()` uses it. -/
def strLower (s : String) : String := String.mk (s.data.map Char.toLower)

/-- Model of `TestFactory.create_test`: lowercase lookup in the fixed three-entry
registry; unknown names raise (modelled as `none`, the raise happens at the
caller in `unitInner`). -/
def create_test (test_name : String) : Option TestClass :=
  if strLower test_name == "performance_test" then some TestClass.PerformanceTest
  else if strLower test_name == "connectivity_test" then some TestClass.ConnectivityTest
  else if strLower test_name == "stability_test" then some TestClass.StabilityTest
  else none

/-- The registry keys of `TestFactory.create_test`. -/
def registryNames : List String := ["performance_test", "connectivity_test", "stability_test"]

/-- Per-unit oracle: the random draws, the two wall-clock readings, the
`datetime.now()` value, and which sink calls raise for this unit. -/
structure UnitOracle where
  fail : Bool
  tStart : Int
  tEnd : Int
  ts : Timestamp
  pgAcquireFails : Bool
  pgLogFails : Bool
  pgReleaseFails : Bool
  mongoFails : Bool
deriving DecidableEq, Repr

/-- Which database handles the runner was constructed with
(`pg_db`/`mongo_db` being non-None). -/
structure RunnerConfig where
  pg_db : Bool
  mongo_db : Bool
deriving DecidableEq, Repr

/-- The dict `_execute_single_test` returns (`error := none` models the
absent `error` key of the PASS dict). -/
structure ResultDict where
  status : String
  device_id : String
  test_name : String
  error : Option String
  duration : Int
deriving DecidableEq, Repr

/-- A sink call attempted by the runner, for tracing which backends it
ever invokes. -/
inductive SinkCall
  | pgUpdateStatus (device_id status : String)
  | pgLogResult (test_name device_id : String)
  | mongoWriteLog (test_name device_id : String)
  | esIndexLog (test_name device_id : String)
deriving DecidableEq, Repr

/-- Whether a sink call targets the Elasticsearch search sink. -/
def SinkCall.isEs : SinkCall → Bool
  | .esIndexLog _ _ => true
  | _ => false

/-- The state of all persistence backends plus the trace of attempted
sink calls. -/
structure SinkState where
  pgDevices : List DeviceRow
  pgTests : List TestsRow
  pgResults : List ResultsRow
  mongoLogs : List MongoDoc
  calls : List SinkCall
deriving DecidableEq, Repr

/-- Status of a device as read back from the `devices` table. -/
def deviceStatus (s : SinkState) (id : String) : Option String :=
  (s.pgDevices.find? (fun r => r.device_id == id)).map DeviceRow.status

/-- Steps 2-3 of `_execute_single_test`: the factory call (raising
ValueError on unknown names) then the awaited `run`. -/
def unitInner (o : UnitOracle) (test_name device_id : String) :
    Except String PassPayload :=
  match create_test test_name with
  | none => Except.error ("Unknown test name requested: " ++ test_name)
  | some tc => TestClass.run tc device_id o.fail

/-- The local `status` variable after the try block ("FAIL" initially,
"PASS" only when `run` returned). -/
def unitStatusVar (o : UnitOracle) (test_name device_id : String) : String :=
  match unitInner o test_name device_id with
  | Except.ok _ => "PASS"
  | Except.error _ => "FAIL"

/-- The local `error_msg` variable ("" initially, `str(e)` on exception). -/
def unitErrorMsg (o : UnitOracle) (test_name device_id : String) : String :=
  match unitInner o test_name device_id with
  | Except.ok _ => ""
  | Except.error e => e

/-- The `result` dict after step 5 added the `duration` key. -/
def unitResult (o : UnitOracle) (test_name device_id : String) : ResultDict :=
  match unitInner o test_name device_id with
  | Except.ok payload =>
      { status := payload.status, device_id := payload.device_id,
        test_name := payload.test_name, error := none,
        duration := o.tEnd - o.tStart }
  | Except.error e =>
      { status := "FAIL", device_id := device_id, test_name := test_name,
        error := some e, duration := o.tEnd - o.tStart }

/-- Step 1: `update_device_status(device_id, "RUNNING")` inside its own
try/except (a raise is logged and swallowed, leaving the table untouched). -/
def acquireStep (cfg : RunnerConfig) (o : UnitOracle) (device_id : String)
    (s : SinkState) : SinkState :=
  if cfg.pg_db then
    let s1 := { s with calls := s.calls ++ [SinkCall.pgUpdateStatus device_id "RUNNING"] }
    if o.pgAcquireFails then s1
    else { s1 with pgDevices := update_device_status s1.pgDevices device_id "RUNNING" o.ts }
  else s

/-- Step 5: one try block around `log_result` then
`update_device_status(device_id, "AVAILABLE")`; a raise in `log_result`
skips the release, a raise in the release leaves the rows written. -/
def pgCleanupStep (cfg : RunnerConfig) (o : UnitOracle) (test_name device_id : String)
    (status : String) (duration : Int) (error_msg : String) (s : SinkState) : SinkState :=
  if cfg.pg_db then
    let s1 := { s with calls := s.calls ++ [SinkCall.pgLogResult test_name device_id] }
    if o.pgLogFails then s1
    else
      let s2 := { s1 with
        pgTests := s1.pgTests ++ [{ test_name := test_name, created_at := o.ts }],
        pgResults := s1.pgResults ++
          [{ test_name := test_name, device_id := device_id, status := status,
             duration_sec := duration, error := error_msg, timestamp := o.ts }],
        calls := s1.calls ++ [SinkCall.pgUpdateStatus device_id "AVAILABLE"] }
      if o.pgReleaseFails then s2
      else { s2 with pgDevices := update_device_status s2.pgDevices device_id "AVAILABLE" o.ts }
  else s

/-- Step 6: `write_log` to MongoDB inside its own try/except. -/
def mongoStep (cfg : RunnerConfig) (o : UnitOracle) (test_name device_id : String)
    (status : String) (duration : Int) (error_msg : String) (s : SinkState) : SinkState :=
  if cfg.mongo_db then
    let s1 := { s with calls := s.calls ++ [SinkCall.mongoWriteLog test_name device_id] }
    if o.mongoFails then s1
    else { s1 with mongoLogs := s1.mongoLogs ++
        [write_log test_name device_id status duration error_msg o.ts] }
  else s

/-- Model of `AsyncTestRunner._execute_single_test`: returns the result dict and the
updated sink state. -/
def execute_single_test (cfg : RunnerConfig) (o : UnitOracle)
    (test_name device_id : String) (s : SinkState) : ResultDict × SinkState :=
  let status := unitStatusVar o test_name device_id
  let error_msg := unitErrorMsg o test_name device_id
  let duration := o.tEnd - o.tStart
  let s1 := acquireStep cfg o device_id s
  let s2 := pgCleanupStep cfg o test_name device_id status duration error_msg s1
  let s3 := mongoStep cfg o test_name device_id status duration error_msg s2
  (unitResult o test_name device_id, s3)

/-- Body of `run_all` unrolled with an explicit unit index `i` selecting each
oracle of each unit; the terminal value of every task is wrapped `Except.ok` exactly
as `asyncio.gather(..., return_exceptions=True)` returns values. -/
def run_all_from (cfg : RunnerConfig) (oracle : Nat → UnitOracle) :
    Nat → List (String × String) → SinkState →
    List (Except String ResultDict) × SinkState
  | _, [], s => ([], s)
  | i, (tn, did) :: rest, s =>
      let rs := execute_single_test cfg (oracle i) tn did s
      let rest2 := run_all_from cfg oracle (i + 1) rest rs.2
      (Except.ok rs.1 :: rest2.1, rest2.2)

/-- Model of `AsyncTestRunner.run_all`. -/
def run_all (cfg : RunnerConfig) (oracle : Nat → UnitOracle)
    (reqs : List (String × String)) (s : SinkState) :
    List (Except String ResultDict) × SinkState :=
  run_all_from cfg oracle 0 reqs s

/-- The summary `main` prints. -/
structure BatchSummary where
  total : Nat
  passed : Nat
  failed : Nat
  total_duration : Int
deriving DecidableEq, Repr

/-- The counting loop of `main`: a gather-level exception value counts as
failed and contributes no duration; otherwise PASS/other splits the count
and `duration` accumulates. -/
def tally : List (Except String ResultDict) → Nat × Nat × Int
  | [] => (0, 0, 0)
  | Except.error _ :: rest =>
      let t := tally rest
      (t.1, t.2.1 + 1, t.2.2)
  | Except.ok r :: rest =>
      let t := tally rest
      if r.status == "PASS" then (t.1 + 1, t.2.1, t.2.2 + r.duration)
      else (t.1, t.2.1 + 1, t.2.2 + r.duration)

/-- The final summary of `main`: `total` is `len(test_requests)`. -/
def summarize (reqs : List (String × String))
    (results : List (Except String ResultDict)) : BatchSummary :=
  { total := reqs.length, passed := (tally results).1,
    failed := (tally results).2.1, total_duration := (tally results).2.2 }

/-- Opaque references to the three database objects `main` constructs. -/
inductive DBRef
  | pg
  | mongo
  | es
deriving DecidableEq, Repr

/-- The runner object: `__init__(self, pg_db=None, mongo_db=None)`. -/
structure AsyncTestRunner where
  pg_db : Option DBRef
  mongo_db : Option DBRef
deriving DecidableEq, Repr

/-- The keyword parameters `AsyncTestRunner.__init__` accepts. -/
def runnerInitParams : List String := ["pg_db", "mongo_db"]

/-- Python keyword-argument binding for `AsyncTestRunner(...)`: any keyword
outside the parameter list raises TypeError before the body runs. -/
def asyncTestRunnerInit (kwargs : List (String × DBRef)) :
    Except String AsyncTestRunner :=
  match kwargs.find? (fun kv => !(runnerInitParams.contains kv.1)) with
  | some kv =>
      Except.error ("__init__() got an unexpected keyword argument " ++ kv.1)
  | none =>
      Except.ok { pg_db := (kwargs.find? (fun kv => kv.1 == "pg_db")).map Prod.snd,
                  mongo_db := (kwargs.find? (fun kv => kv.1 == "mongo_db")).map Prod.snd }

/-- The construction `main` performs at line 39:
`AsyncTestRunner(pg_db=pg_db, mongo_db=mongo_db, es_db=es_db)`. -/
def mainRunnerInit : Except String AsyncTestRunner :=
  asyncTestRunnerInit [("pg_db", DBRef.pg), ("mongo_db", DBRef.mongo), ("es_db", DBRef.es)]

/-- Model of `main` from the construction on: build the runner, then dispatch the
batch; a TypeError in the construction aborts before any dispatch. -/
def mainDispatch (oracle : Nat → UnitOracle) (reqs : List (String × String))
    (s : SinkState) : Except String (List (Except String ResultDict) × SinkState) :=
  match mainRunnerInit with
  | Except.error e => Except.error e
  | Except.ok _ => Except.ok (run_all { pg_db := true, mongo_db := true } oracle reqs s)

/-- The MongoDB documents one unit appends (none when the handle is absent
or its write raises). -/
def unitMongoDelta (cfg : RunnerConfig) (o : UnitOracle) (tn did : String) :
    List MongoDoc :=
  if cfg.mongo_db && !o.mongoFails then
    [write_log tn did (unitStatusVar o tn did) (o.tEnd - o.tStart) (unitErrorMsg o tn did) o.ts]
  else []

/-- The MongoDB documents a whole batch appends, unit by unit. -/
def batchMongoDelta (cfg : RunnerConfig) (oracle : Nat → UnitOracle) :
    Nat → List (String × String) → List MongoDoc
  | _, [] => []
  | i, (tn, did) :: rest =>
      unitMongoDelta cfg (oracle i) tn did ++ batchMongoDelta cfg oracle (i + 1) rest

/-- The `results` rows one unit appends (none when the handle is absent or
`log_result` raises). -/
def unitPgResultsDelta (cfg : RunnerConfig) (o : UnitOracle) (tn did : String) :
    List ResultsRow :=
  if cfg.pg_db && !o.pgLogFails then
    [{ test_name := tn, device_id := did, status := unitStatusVar o tn did,
       duration_sec := o.tEnd - o.tStart, error := unitErrorMsg o tn did, timestamp := o.ts }]
  else []

/-- The `results` rows a whole batch appends, unit by unit. -/
def batchPgResultsDelta (cfg : RunnerConfig) (oracle : Nat → UnitOracle) :
    Nat → List (String × String) → List ResultsRow
  | _, [] => []
  | i, (tn, did) :: rest =>
      unitPgResultsDelta cfg (oracle i) tn did ++ batchPgResultsDelta cfg oracle (i + 1) rest

/-- The sink calls one unit attempts. -/
def unitCalls (cfg : RunnerConfig) (o : UnitOracle) (tn did : String) : List SinkCall :=
  (if cfg.pg_db then [SinkCall.pgUpdateStatus did "RUNNING"] else []) ++
  ((if cfg.pg_db then [SinkCall.pgLogResult tn did] else []) ++
   (if cfg.pg_db && !o.pgLogFails then [SinkCall.pgUpdateStatus did "AVAILABLE"] else [])) ++
  (if cfg.mongo_db then [SinkCall.mongoWriteLog tn did] else [])

/-- Concrete fixture: a runner holding both database handles, as `main`
intends to build. -/
def cfgPM : RunnerConfig := { pg_db := true, mongo_db := true }

/-- Concrete fixture timestamps. -/
def tsA : Timestamp := { iso := "2024-01-01T00:00:00" }

def tsB : Timestamp := { iso := "2024-01-01T00:00:01" }

/-- Concrete fixture: a fault-free unit oracle whose test passes. -/
def oracleOK : UnitOracle :=
  { fail := false, tStart := 0, tEnd := 1, ts := tsB,
    pgAcquireFails := false, pgLogFails := false, pgReleaseFails := false,
    mongoFails := false }

/-- Concrete fixture: like `oracleOK` but `log_result` raises. -/
def oracleLogFail : UnitOracle :=
  { fail := false, tStart := 0, tEnd := 1, ts := tsB,
    pgAcquireFails := false, pgLogFails := true, pgReleaseFails := false,
    mongoFails := false }

/-- Concrete fixture: one registered device, AVAILABLE, empty sinks. -/
def stateAvail : SinkState :=
  { pgDevices := [{ device_id := "device_iphone_001", status := "AVAILABLE", updated_at := tsA }],
    pgTests := [], pgResults := [], mongoLogs := [], calls := [] }

/-- Concrete fixture: the same device already RUNNING (held by someone). -/
def stateRunning : SinkState :=
  { pgDevices := [{ device_id := "device_iphone_001", status := "RUNNING", updated_at := tsA }],
    pgTests := [], pgResults := [], mongoLogs := [], calls := [] }

theorem execute_fst (cfg : RunnerConfig) (o : UnitOracle) (tn did : String)
    (s : SinkState) : (execute_single_test cfg o tn did s).1 = unitResult o tn did := rfl

theorem unitInner_ok_status (o : UnitOracle) (tn did : String) (p : PassPayload)
    (h : unitInner o tn did = Except.ok p) : p.status = "PASS" := by
  unfold unitInner at h
  cases hc : create_test tn <;> rw [hc] at h
  · exact absurd h (by simp)
  · unfold TestClass.run at h
    cases hf : o.fail <;> rw [hf] at h <;> simp at h
    rw [← h]

theorem unitInner_error_nonempty (o : UnitOracle) (tn did : String) (e : String)
    (h : unitInner o tn did = Except.error e) : e ≠ "" := by
  unfold unitInner at h
  cases hc : create_test tn <;> rw [hc] at h
  · simp at h
    intro hemp
    rw [hemp] at h
    have hlen := congrArg String.length h
    simp [String.length_append] at hlen
    exact absurd hlen.1 (by decide)
  · rename_i tc
    unfold TestClass.run at h
    cases hf : o.fail <;> rw [hf] at h <;> simp at h
    rw [← h]
    cases tc <;> decide

theorem tally_split (l : List (Except String ResultDict)) :
    (tally l).1 + (tally l).2.1 = l.length := by
  induction l with
  | nil => rfl
  | cons r rest ih =>
      cases r with
      | error e => simp [tally]; omega
      | ok d =>
          cases h : d.status == "PASS" <;> simp [tally, h] <;> omega

theorem run_all_from_length (cfg : RunnerConfig) (oracle : Nat → UnitOracle) :
    ∀ (reqs : List (String × String)) (i : Nat) (s : SinkState),
      (run_all_from cfg oracle i reqs s).1.length = reqs.length := by
  intro reqs
  induction reqs with
  | nil => intro i s; rfl
  | cons req rest ih =>
      intro i s
      obtain ⟨tn, did⟩ := req
      simp [run_all_from, ih]

theorem run_all_from_get (cfg : RunnerConfig) (oracle : Nat → UnitOracle) :
    ∀ (reqs : List (String × String)) (i k : Nat) (s : SinkState),
      (run_all_from cfg oracle i reqs s).1.get? k =
        (reqs.get? k).map (fun req => Except.ok (unitResult (oracle (i + k)) req.1 req.2)) := by
  intro reqs
  induction reqs with
  | nil => intro i k s; rfl
  | cons req rest ih =>
      intro i k s
      obtain ⟨tn, did⟩ := req
      cases k with
      | zero => simp [run_all_from, execute_fst]
      | succ k =>
          simp only [run_all_from, List.get?_cons_succ]
          rw [ih]
          have harith : i + 1 + k = i + (k + 1) := by omega
          rw [harith]

theorem run_all_from_ok (cfg : RunnerConfig) (oracle : Nat → UnitOracle) :
    ∀ (reqs : List (String × String)) (i : Nat) (s : SinkState) r,
      r ∈ (run_all_from cfg oracle i reqs s).1 → ∃ d, r = Except.ok d := by
  intro reqs
  induction reqs with
  | nil => intro i s r h; simp [run_all_from] at h
  | cons req rest ih =>
      intro i s r h
      obtain ⟨tn, did⟩ := req
      simp only [run_all_from, List.mem_cons] at h
      rcases h with h | h
      · exact ⟨_, h⟩
      · exact ih (i + 1) _ r h

theorem execute_state_calls (cfg : RunnerConfig) (o : UnitOracle) (tn did : String)
    (s : SinkState) :
    (execute_single_test cfg o tn did s).2.calls = s.calls ++ unitCalls cfg o tn did := by
  cases h1 : cfg.pg_db <;> cases h2 : cfg.mongo_db <;> cases h3 : o.pgAcquireFails <;>
    cases h4 : o.pgLogFails <;> cases h5 : o.pgReleaseFails <;> cases h6 : o.mongoFails <;>
      simp [execute_single_test, acquireStep, pgCleanupStep, mongoStep, unitCalls,
            h1, h2, h3, h4, h5, h6, List.append_assoc]

theorem execute_state_mongoLogs (cfg : RunnerConfig) (o : UnitOracle) (tn did : String)
    (s : SinkState) :
    (execute_single_test cfg o tn did s).2.mongoLogs =
      s.mongoLogs ++ unitMongoDelta cfg o tn did := by
  cases h1 : cfg.pg_db <;> cases h2 : cfg.mongo_db <;> cases h3 : o.pgAcquireFails <;>
    cases h4 : o.pgLogFails <;> cases h5 : o.pgReleaseFails <;> cases h6 : o.mongoFails <;>
      simp [execute_single_test, acquireStep, pgCleanupStep, mongoStep, unitMongoDelta,
            h1, h2, h3, h4, h5, h6]

theorem execute_state_pgResults (cfg : RunnerConfig) (o : UnitOracle) (tn did : String)
    (s : SinkState) :
    (execute_single_test cfg o tn did s).2.pgResults =
      s.pgResults ++ unitPgResultsDelta cfg o tn did := by
  cases h1 : cfg.pg_db <;> cases h2 : cfg.mongo_db <;> cases h3 : o.pgAcquireFails <;>
    cases h4 : o.pgLogFails <;> cases h5 : o.pgReleaseFails <;> cases h6 : o.mongoFails <;>
      simp [execute_single_test, acquireStep, pgCleanupStep, mongoStep, unitPgResultsDelta,
            h1, h2, h3, h4, h5, h6]

theorem run_all_from_mongoLogs (cfg : RunnerConfig) (oracle : Nat → UnitOracle) :
    ∀ (reqs : List (String × String)) (i : Nat) (s : SinkState),
      (run_all_from cfg oracle i reqs s).2.mongoLogs =
        s.mongoLogs ++ batchMongoDelta cfg oracle i reqs := by
  intro reqs
  induction reqs with
  | nil => intro i s; simp [run_all_from, batchMongoDelta]
  | cons req rest ih =>
      intro i s
      obtain ⟨tn, did⟩ := req
      simp only [run_all_from, batchMongoDelta]
      rw [ih, execute_state_mongoLogs, List.append_assoc]

theorem run_all_from_pgResults (cfg : RunnerConfig) (oracle : Nat → UnitOracle) :
    ∀ (reqs : List (String × String)) (i : Nat) (s : SinkState),
      (run_all_from cfg oracle i reqs s).2.pgResults =
        s.pgResults ++ batchPgResultsDelta cfg oracle i reqs := by
  intro reqs
  induction reqs with
  | nil => intro i s; simp [run_all_from, batchPgResultsDelta]
  | cons req rest ih =>
      intro i s
      obtain ⟨tn, did⟩ := req
      simp only [run_all_from, batchPgResultsDelta]
      rw [ih, execute_state_pgResults, List.append_assoc]

theorem unitCalls_no_es (cfg : RunnerConfig) (o : UnitOracle) (tn did : String) :
    ∀ c ∈ unitCalls cfg o tn did, c.isEs = false := by
  have hall : (unitCalls cfg o tn did).all (fun c => c.isEs == false) = true := by
    cases h1 : cfg.pg_db <;> cases h2 : cfg.mongo_db <;> cases h3 : o.pgLogFails <;>
      simp [unitCalls, h1, h2, h3, SinkCall.isEs]
  intro c hc
  have hres := List.all_eq_true.mp hall c hc
  simpa using hres

theorem run_all_from_calls (cfg : RunnerConfig) (oracle : Nat → UnitOracle) :
    ∀ (reqs : List (String × String)) (i : Nat) (s : SinkState) c,
      c ∈ (run_all_from cfg oracle i reqs s).2.calls → c ∈ s.calls ∨ c.isEs = false := by
  intro reqs
  induction reqs with
  | nil => intro i s c h; exact Or.inl h
  | cons req rest ih =>
      intro i s c h
      obtain ⟨tn, did⟩ := req
      simp only [run_all_from] at h
      rcases ih (i + 1) _ c h with h2 | h2
      · rw [execute_state_calls] at h2
        rcases List.mem_append.mp h2 with h3 | h3
        · exact Or.inl h3
        · exact Or.inr (unitCalls_no_es cfg (oracle i) tn did c h3)
      · exact Or.inr h2

theorem find_update_device (devs : List DeviceRow) (id st : String) (ts : Timestamp) :
    (update_device_status devs id st ts).find? (fun r => r.device_id == id) =
      (devs.find? (fun r => r.device_id == id)).map
        (fun r => { device_id := r.device_id, status := st, updated_at := ts }) := by
  induction devs with
  | nil => rfl
  | cons r rest ih =>
      unfold update_device_status at ih ⊢
      rw [List.map_cons]
      cases h : (r.device_id == id)
      · rw [if_neg (by simp [h]), List.find?_cons_of_neg _ (by simp [h]),
            List.find?_cons_of_neg _ (by simp [h]), ih]
      · rw [if_pos (by rfl),
            @List.find?_cons_of_pos DeviceRow (fun r => r.device_id == id)
              { device_id := r.device_id, status := st, updated_at := ts } _ h,
            @List.find?_cons_of_pos DeviceRow (fun r => r.device_id == id) r rest h]
        rfl

theorem acquire_deviceStatus (cfg : RunnerConfig) (o : UnitOracle) (did : String)
    (s : SinkState) (hpg : cfg.pg_db = true) (hok : o.pgAcquireFails = false) :
    deviceStatus (acquireStep cfg o did s) did =
      (deviceStatus s did).map (fun _ => "RUNNING") := by
  simp only [acquireStep, hpg, hok, if_true, Bool.false_eq_true, if_false, deviceStatus,
    find_update_device]
  cases h : s.pgDevices.find? (fun r => r.device_id == did) <;> simp [h]

theorem unitResult_eq_of (o1 o2 : UnitOracle) (tn did : String)
    (hf : o1.fail = o2.fail) (hs : o1.tStart = o2.tStart) (he : o1.tEnd = o2.tEnd) :
    unitResult o1 tn did = unitResult o2 tn did := by
  unfold unitResult unitInner TestClass.run
  rw [hf, hs, he]

theorem unitMongoDelta_eq_of (cfg : RunnerConfig) (o1 o2 : UnitOracle) (tn did : String)
    (hf : o1.fail = o2.fail) (hs : o1.tStart = o2.tStart) (he : o1.tEnd = o2.tEnd)
    (ht : o1.ts = o2.ts) (hm : o1.mongoFails = o2.mongoFails) :
    unitMongoDelta cfg o1 tn did = unitMongoDelta cfg o2 tn did := by
  unfold unitMongoDelta unitStatusVar unitErrorMsg unitInner TestClass.run
  rw [hf, hs, he, ht, hm]

theorem unitPgResultsDelta_eq_of (cfg : RunnerConfig) (o1 o2 : UnitOracle) (tn did : String)
    (hf : o1.fail = o2.fail) (hs : o1.tStart = o2.tStart) (he : o1.tEnd = o2.tEnd)
    (ht : o1.ts = o2.ts) (hl : o1.pgLogFails = o2.pgLogFails) :
    unitPgResultsDelta cfg o1 tn did = unitPgResultsDelta cfg o2 tn did := by
  unfold unitPgResultsDelta unitStatusVar unitErrorMsg unitInner TestClass.run
  rw [hf, hs, he, ht, hl]

theorem run_all_from_fst_congr (cfg : RunnerConfig) (oracle1 oracle2 : Nat → UnitOracle)
    (h : ∀ i tn did, unitResult (oracle1 i) tn did = unitResult (oracle2 i) tn did) :
    ∀ (reqs : List (String × String)) (i : Nat) (s1 s2 : SinkState),
      (run_all_from cfg oracle1 i reqs s1).1 = (run_all_from cfg oracle2 i reqs s2).1 := by
  intro reqs
  induction reqs with
  | nil => intro i s1 s2; rfl
  | cons req rest ih =>
      intro i s1 s2
      obtain ⟨tn, did⟩ := req
      simp only [run_all_from]
      rw [execute_fst, execute_fst, h i tn did, ih]

theorem batchMongoDelta_congr (cfg : RunnerConfig) (oracle1 oracle2 : Nat → UnitOracle)
    (h : ∀ i tn did, unitMongoDelta cfg (oracle1 i) tn did = unitMongoDelta cfg (oracle2 i) tn did) :
    ∀ (reqs : List (String × String)) (i : Nat),
      batchMongoDelta cfg oracle1 i reqs = batchMongoDelta cfg oracle2 i reqs := by
  intro reqs
  induction reqs with
  | nil => intro i; rfl
  | cons req rest ih =>
      intro i
      obtain ⟨tn, did⟩ := req
      simp only [batchMongoDelta]
      rw [h i tn did, ih]

theorem batchPgResultsDelta_congr (cfg : RunnerConfig) (oracle1 oracle2 : Nat → UnitOracle)
    (h : ∀ i tn did, unitPgResultsDelta cfg (oracle1 i) tn did = unitPgResultsDelta cfg (oracle2 i) tn did) :
    ∀ (reqs : List (String × String)) (i : Nat),
      batchPgResultsDelta cfg oracle1 i reqs = batchPgResultsDelta cfg oracle2 i reqs := by
  intro reqs
  induction reqs with
  | nil => intro i; rfl
  | cons req rest ih =>
      intro i
      obtain ⟨tn, did⟩ := req
      simp only [batchPgResultsDelta]
      rw [h i tn did, ih]

/-- Claim C1 counterexample: with device `device_iphone_001` already
RUNNING, the acquire step of a new unit does not fail with AlreadyInUse:
the unit proceeds and records a PASS outcome with no error, the acquire
step overwrites the row of the holder (its timestamp changes), and two units
acquiring the same device both succeed and both record PASS. -/
theorem C1_counterexample :
    (execute_single_test cfgPM oracleOK "performance_test" "device_iphone_001" stateRunning).1.status = "PASS" ∧
    (execute_single_test cfgPM oracleOK "performance_test" "device_iphone_001" stateRunning).1.error = none ∧
    (acquireStep cfgPM oracleOK "device_iphone_001" stateRunning).pgDevices =
      [{ device_id := "device_iphone_001", status := "RUNNING", updated_at := tsB }] ∧
    stateRunning.pgDevices ≠
      [{ device_id := "device_iphone_001", status := "RUNNING", updated_at := tsB }] ∧
    ((run_all cfgPM (fun _ => oracleOK)
        [("performance_test", "device_iphone_001"), ("connectivity_test", "device_iphone_001")]
        stateAvail).1 =
      [Except.ok { status := "PASS", device_id := "device_iphone_001", test_name := "PerformanceTest", error := none, duration := 1 },
       Except.ok { status := "PASS", device_id := "device_iphone_001", test_name := "ConnectivityTest", error := none, duration := 1 }]) := by
  exact ⟨by decide, by decide, by decide, by decide, rfl⟩

/-- Claim C1 (amended): the acquire step never fails and never checks the
current status: when the PostgreSQL handle is present and the UPDATE does
not raise, it maps the status of the device to RUNNING whatever it was before,
and the outcome of a unit is entirely independent of the device table state,
so two acquisitions of the same device both proceed. -/
theorem C1_amended_acquire_unconditional :
    (∀ (cfg : RunnerConfig) (o : UnitOracle) (did : String) (s : SinkState),
      cfg.pg_db = true → o.pgAcquireFails = false →
        deviceStatus (acquireStep cfg o did s) did =
          (deviceStatus s did).map (fun _ => "RUNNING")) ∧
    (∀ (cfg : RunnerConfig) (o : UnitOracle) (tn did : String) (s t : SinkState),
      (execute_single_test cfg o tn did s).1 = (execute_single_test cfg o tn did t).1) := by
  constructor
  · intro cfg o did s hpg hok
    exact acquire_deviceStatus cfg o did s hpg hok
  · intro cfg o tn did s t
    rw [execute_fst, execute_fst]

/-- Witness for the amended C1 at a concrete RUNNING device. -/
theorem C1_amended_witness :
    (cfgPM.pg_db = true ∧ oracleOK.pgAcquireFails = false) ∧
    deviceStatus (acquireStep cfgPM oracleOK "device_iphone_001" stateRunning) "device_iphone_001" =
      (deviceStatus stateRunning "device_iphone_001").map (fun _ => "RUNNING") :=
  ⟨⟨rfl, rfl⟩,
   C1_amended_acquire_unconditional.1 cfgPM oracleOK "device_iphone_001" stateRunning rfl rfl⟩

/-- Claim C2: for every batch, `run_all` returns exactly one result per
request, and the aggregated summary satisfies
total = passed + failed = number of requests. -/
theorem C2_batch_counts (cfg : RunnerConfig) (oracle : Nat → UnitOracle)
    (reqs : List (String × String)) (s : SinkState) :
    (run_all cfg oracle reqs s).1.length = reqs.length ∧
    (summarize reqs (run_all cfg oracle reqs s).1).total =
      (summarize reqs (run_all cfg oracle reqs s).1).passed +
        (summarize reqs (run_all cfg oracle reqs s).1).failed ∧
    (summarize reqs (run_all cfg oracle reqs s).1).total = reqs.length := by
  refine ⟨run_all_from_length cfg oracle reqs 0 s, ?_, rfl⟩
  show reqs.length = (tally (run_all cfg oracle reqs s).1).1 + (tally (run_all cfg oracle reqs s).1).2.1
  rw [tally_split]
  exact (run_all_from_length cfg oracle reqs 0 s).symm

/-- Claim C3 evaluated at the failing input: a unit whose test passes but
whose `log_result` sink write raises leaves its device RUNNING (release is
skipped, contradicting the unconditional-release claim) while the MongoDB
sink still received the outcome. -/
theorem C3_release_skipped_on_log_failure :
    (execute_single_test cfgPM oracleLogFail "performance_test" "device_iphone_001" stateAvail).1.status = "PASS" ∧
    deviceStatus (execute_single_test cfgPM oracleLogFail "performance_test" "device_iphone_001" stateAvail).2 "device_iphone_001" = some "RUNNING" ∧
    (execute_single_test cfgPM oracleLogFail "performance_test" "device_iphone_001" stateAvail).2.mongoLogs.length = 1 :=
  ⟨by decide, by decide, by decide⟩

/-- Claim C4: a sink failure never changes the outcome of its unit, never
blocks the other sink, and never changes the batch summary: the result
dict is invariant under all four sink-fault flags, MongoDB receives the
same documents whatever the PostgreSQL faults, PostgreSQL receives the
same result rows whatever the MongoDB fault, and forcing the write of one sink
to always fail leaves the batch summary and the deliveries of the other sink
unchanged. -/
theorem C4_sink_failure_isolated :
    (∀ (cfg : RunnerConfig) (o : UnitOracle) (tn did : String) (s : SinkState)
        (b1 b2 b3 b4 : Bool),
      (execute_single_test cfg
          { o with pgAcquireFails := b1, pgLogFails := b2, pgReleaseFails := b3,
                   mongoFails := b4 } tn did s).1 =
        (execute_single_test cfg o tn did s).1) ∧
    (∀ (cfg : RunnerConfig) (o : UnitOracle) (tn did : String) (s : SinkState)
        (b1 b2 b3 : Bool),
      (execute_single_test cfg
          { o with pgAcquireFails := b1, pgLogFails := b2, pgReleaseFails := b3 }
          tn did s).2.mongoLogs =
        (execute_single_test cfg o tn did s).2.mongoLogs) ∧
    (∀ (cfg : RunnerConfig) (o : UnitOracle) (tn did : String) (s : SinkState) (b : Bool),
      (execute_single_test cfg { o with mongoFails := b } tn did s).2.pgResults =
        (execute_single_test cfg o tn did s).2.pgResults) ∧
    (∀ (cfg : RunnerConfig) (oracle : Nat → UnitOracle) (reqs : List (String × String))
        (s : SinkState),
      summarize reqs (run_all cfg (fun i => { oracle i with pgLogFails := true }) reqs s).1 =
        summarize reqs (run_all cfg oracle reqs s).1 ∧
      (run_all cfg (fun i => { oracle i with pgLogFails := true }) reqs s).2.mongoLogs =
        (run_all cfg oracle reqs s).2.mongoLogs ∧
      summarize reqs (run_all cfg (fun i => { oracle i with mongoFails := true }) reqs s).1 =
        summarize reqs (run_all cfg oracle reqs s).1 ∧
      (run_all cfg (fun i => { oracle i with mongoFails := true }) reqs s).2.pgResults =
        (run_all cfg oracle reqs s).2.pgResults) := by
  refine ⟨?_, ?_, ?_, ?_⟩
  · intro cfg o tn did s b1 b2 b3 b4
    rw [execute_fst, execute_fst]
    exact unitResult_eq_of
      { o with pgAcquireFails := b1, pgLogFails := b2, pgReleaseFails := b3, mongoFails := b4 }
      o tn did rfl rfl rfl
  · intro cfg o tn did s b1 b2 b3
    rw [execute_state_mongoLogs, execute_state_mongoLogs,
        unitMongoDelta_eq_of cfg
          { o with pgAcquireFails := b1, pgLogFails := b2, pgReleaseFails := b3 }
          o tn did rfl rfl rfl rfl rfl]
  · intro cfg o tn did s b
    rw [execute_state_pgResults, execute_state_pgResults,
        unitPgResultsDelta_eq_of cfg { o with mongoFails := b } o tn did rfl rfl rfl rfl rfl]
  · intro cfg oracle reqs s
    refine ⟨?_, ?_, ?_, ?_⟩
    · have hres : (run_all cfg (fun i => { oracle i with pgLogFails := true }) reqs s).1 =
          (run_all cfg oracle reqs s).1 :=
        run_all_from_fst_congr cfg (fun i => { oracle i with pgLogFails := true }) oracle
          (fun i tn did =>
            unitResult_eq_of { oracle i with pgLogFails := true } (oracle i) tn did rfl rfl rfl)
          reqs 0 s s
      rw [hres]
    · show (run_all_from cfg (fun i => { oracle i with pgLogFails := true }) 0 reqs s).2.mongoLogs =
        (run_all_from cfg oracle 0 reqs s).2.mongoLogs
      rw [run_all_from_mongoLogs, run_all_from_mongoLogs,
          batchMongoDelta_congr cfg (fun i => { oracle i with pgLogFails := true }) oracle
            (fun i tn did =>
              unitMongoDelta_eq_of cfg { oracle i with pgLogFails := true } (oracle i)
                tn did rfl rfl rfl rfl rfl)
            reqs 0]
    · have hres : (run_all cfg (fun i => { oracle i with mongoFails := true }) reqs s).1 =
          (run_all cfg oracle reqs s).1 :=
        run_all_from_fst_congr cfg (fun i => { oracle i with mongoFails := true }) oracle
          (fun i tn did =>
            unitResult_eq_of { oracle i with mongoFails := true } (oracle i) tn did rfl rfl rfl)
          reqs 0 s s
      rw [hres]
    · show (run_all_from cfg (fun i => { oracle i with mongoFails := true }) 0 reqs s).2.pgResults =
        (run_all_from cfg oracle 0 reqs s).2.pgResults
      rw [run_all_from_pgResults, run_all_from_pgResults,
          batchPgResultsDelta_congr cfg (fun i => { oracle i with mongoFails := true }) oracle
            (fun i tn did =>
              unitPgResultsDelta_eq_of cfg { oracle i with mongoFails := true } (oracle i)
                tn did rfl rfl rfl rfl rfl)
            reqs 0]

/-- Claim C5: every entry `run_all` returns is a value (no exception
raised inside a unit propagates out of `run_all`), and at the aggregation
boundary an exception value adds exactly one failure, no pass, and no
duration — it is absorbed, never re-raised. -/
theorem C5_exceptions_as_values :
    (∀ (cfg : RunnerConfig) (oracle : Nat → UnitOracle) (reqs : List (String × String))
        (s : SinkState) r, r ∈ (run_all cfg oracle reqs s).1 → ∃ d, r = Except.ok d) ∧
    (∀ (e : String) (rest : List (Except String ResultDict)),
      (tally (Except.error e :: rest)).2.1 = (tally rest).2.1 + 1 ∧
      (tally (Except.error e :: rest)).1 = (tally rest).1 ∧
      (tally (Except.error e :: rest)).2.2 = (tally rest).2.2) := by
  constructor
  · intro cfg oracle reqs s r h
    exact run_all_from_ok cfg oracle reqs 0 s r h
  · intro e rest
    exact ⟨rfl, rfl, rfl⟩

/-- Witness for C5 at a concrete one-request batch. -/
theorem C5_witness :
    (Except.ok (unitResult oracleOK "performance_test" "device_iphone_001") ∈
      (run_all cfgPM (fun _ => oracleOK) [("performance_test", "device_iphone_001")] stateAvail).1) ∧
    ∃ d, (Except.ok (unitResult oracleOK "performance_test" "device_iphone_001") :
        Except String ResultDict) = Except.ok d := by
  have hmem : Except.ok (unitResult oracleOK "performance_test" "device_iphone_001") ∈
      (run_all cfgPM (fun _ => oracleOK) [("performance_test", "device_iphone_001")] stateAvail).1 := by
    rw [show (run_all cfgPM (fun _ => oracleOK)
          [("performance_test", "device_iphone_001")] stateAvail).1 =
        [Except.ok (unitResult oracleOK "performance_test" "device_iphone_001")] from rfl]
    exact List.mem_singleton_self _
  exact ⟨hmem,
    C5_exceptions_as_values.1 cfgPM (fun _ => oracleOK)
      [("performance_test", "device_iphone_001")] stateAvail _ hmem⟩

/-- Claim C6: catalog lookup lowercases its argument before matching the
fixed three-entry registry (names equal up to case select the same
variant), an unregistered name yields a FAIL outcome carrying the
unknown-test-name error, and the entry of each unit in the batch result depends
only on its own request, so an unknown test type cannot prevent other
units from completing. -/
theorem C6_catalog_lookup :
    (∀ s t : String, strLower s = strLower t → create_test s = create_test t) ∧
    (∀ s : String, create_test s = none ↔ strLower s ∉ registryNames) ∧
    (∀ (cfg : RunnerConfig) (o : UnitOracle) (tn did : String) (st : SinkState),
      create_test tn = none →
        (execute_single_test cfg o tn did st).1 =
          { status := "FAIL", device_id := did, test_name := tn,
            error := some ("Unknown test name requested: " ++ tn),
            duration := o.tEnd - o.tStart }) ∧
    (∀ (cfg : RunnerConfig) (oracle : Nat → UnitOracle) (reqs : List (String × String))
        (st : SinkState) (k : Nat),
      (run_all cfg oracle reqs st).1.get? k =
        (reqs.get? k).map (fun req => Except.ok (unitResult (oracle k) req.1 req.2))) := by
  refine ⟨?_, ?_, ?_, ?_⟩
  · intro s t h
    unfold create_test
    rw [h]
  · intro s
    unfold create_test
    by_cases h1 : strLower s = "performance_test"
    · simp [h1, registryNames]
    · by_cases h2 : strLower s = "connectivity_test"
      · simp [h1, h2, registryNames]
      · by_cases h3 : strLower s = "stability_test"
        · simp [h1, h2, h3, registryNames]
        · simp [h1, h2, h3, registryNames]
  · intro cfg o tn did st hc
    rw [execute_fst]
    unfold unitResult unitInner
    rw [hc]
  · intro cfg oracle reqs st k
    have hg := run_all_from_get cfg oracle reqs 0 k st
    simpa using hg

/-- Witness for C6: two spellings of the performance test differing only
in case select the same variant, and an unknown name yields the FAIL
outcome carrying the unknown-test-name error. -/
theorem C6_witness :
    (strLower "Performance_Test" = strLower "PERFORMANCE_TEST" ∧
      create_test "Performance_Test" = create_test "PERFORMANCE_TEST") ∧
    (create_test "nonexistent_test" = none ∧
      (execute_single_test cfgPM oracleOK "nonexistent_test" "device_iphone_001" stateAvail).1 =
        { status := "FAIL", device_id := "device_iphone_001", test_name := "nonexistent_test",
          error := some ("Unknown test name requested: " ++ "nonexistent_test"),
          duration := oracleOK.tEnd - oracleOK.tStart }) :=
  ⟨⟨by decide, C6_catalog_lookup.1 "Performance_Test" "PERFORMANCE_TEST" (by decide)⟩,
   ⟨by decide,
    C6_catalog_lookup.2.2.1 cfgPM oracleOK "nonexistent_test" "device_iphone_001" stateAvail
      (by decide)⟩⟩

/-- Claim C7: a unit whose variant raises its ExecutionError records a
FAIL outcome with the raised message verbatim, a unit whose execution
succeeds records PASS, and the injected failure is never batch-aborting:
every entry of the batch result stays a value. -/
theorem C7_execution_error_verbatim :
    (∀ (cfg : RunnerConfig) (o : UnitOracle) (tn did : String) (s : SinkState)
        (tc : TestClass), create_test tn = some tc →
      (o.fail = true →
        (execute_single_test cfg o tn did s).1 =
          { status := "FAIL", device_id := did, test_name := tn,
            error := some tc.failureMessage, duration := o.tEnd - o.tStart }) ∧
      (o.fail = false →
        (execute_single_test cfg o tn did s).1 =
          { status := "PASS", device_id := did, test_name := tc.className,
            error := none, duration := o.tEnd - o.tStart })) ∧
    (∀ (cfg : RunnerConfig) (oracle : Nat → UnitOracle) (reqs : List (String × String))
        (s : SinkState) r, r ∈ (run_all cfg oracle reqs s).1 → Except.isOk r = true) := by
  constructor
  · intro cfg o tn did s tc hc
    constructor
    · intro hf
      rw [execute_fst]
      unfold unitResult unitInner TestClass.run
      rw [hc, hf]
      simp
    · intro hf
      rw [execute_fst]
      unfold unitResult unitInner TestClass.run
      rw [hc, hf]
      simp
  · intro cfg oracle reqs s r h
    obtain ⟨d, rfl⟩ := run_all_from_ok cfg oracle reqs 0 s r h
    rfl

/-- Witness for C7: the performance test with its failure draw fired
records FAIL with its exact message. -/
theorem C7_witness :
    create_test "performance_test" = some TestClass.PerformanceTest ∧
    (execute_single_test cfgPM { oracleOK with fail := true } "performance_test"
        "device_iphone_001" stateAvail).1 =
      { status := "FAIL", device_id := "device_iphone_001", test_name := "performance_test",
        error := some TestClass.PerformanceTest.failureMessage,
        duration := { oracleOK with fail := true }.tEnd - { oracleOK with fail := true }.tStart } :=
  ⟨by decide,
   (C7_execution_error_verbatim.1 cfgPM { oracleOK with fail := true } "performance_test"
      "device_iphone_001" stateAvail TestClass.PerformanceTest (by decide)).1 rfl⟩

/-- Claim C8: with a monotone wall clock, every outcome has a nonnegative
duration, every PASS outcome has an absent error field, and every FAIL
outcome carries a non-empty error string. -/
theorem C8_outcome_wellformed (cfg : RunnerConfig) (o : UnitOracle) (tn did : String)
    (s : SinkState) (h : o.tStart ≤ o.tEnd) :
    0 ≤ (execute_single_test cfg o tn did s).1.duration ∧
    ((execute_single_test cfg o tn did s).1.status = "PASS" →
      (execute_single_test cfg o tn did s).1.error = none) ∧
    ((execute_single_test cfg o tn did s).1.status = "FAIL" →
      ∃ e, (execute_single_test cfg o tn did s).1.error = some e ∧ e ≠ "") := by
  rw [execute_fst]
  refine ⟨?_, ?_, ?_⟩
  · have hdur : (unitResult o tn did).duration = o.tEnd - o.tStart := by
      unfold unitResult
      cases hi : unitInner o tn did <;> simp
    rw [hdur]
    linarith
  · intro hp
    cases hi : unitInner o tn did with
    | ok p => simp [unitResult, hi]
    | error e =>
        have hst : (unitResult o tn did).status = "FAIL" := by simp [unitResult, hi]
        rw [hst] at hp
        exact absurd hp (by decide)
  · intro hf
    cases hi : unitInner o tn did with
    | ok p =>
        have hst : (unitResult o tn did).status = p.status := by simp [unitResult, hi]
        rw [unitInner_ok_status o tn did p hi] at hst
        rw [hst] at hf
        exact absurd hf (by decide)
    | error e =>
        refine ⟨e, ?_, unitInner_error_nonempty o tn did e hi⟩
        simp [unitResult, hi]

/-- Witness for C8 at the fault-free passing unit. -/
theorem C8_witness :
    oracleOK.tStart ≤ oracleOK.tEnd ∧
    (0 ≤ (execute_single_test cfgPM oracleOK "performance_test" "device_iphone_001" stateAvail).1.duration ∧
     ((execute_single_test cfgPM oracleOK "performance_test" "device_iphone_001" stateAvail).1.status = "PASS" →
       (execute_single_test cfgPM oracleOK "performance_test" "device_iphone_001" stateAvail).1.error = none) ∧
     ((execute_single_test cfgPM oracleOK "performance_test" "device_iphone_001" stateAvail).1.status = "FAIL" →
       ∃ e, (execute_single_test cfgPM oracleOK "performance_test" "device_iphone_001" stateAvail).1.error = some e ∧ e ≠ "")) :=
  ⟨by decide,
   C8_outcome_wellformed cfgPM oracleOK "performance_test" "device_iphone_001" stateAvail
     (by decide)⟩

/-- Claim C9: the search-sink record derives log_level = ERROR exactly for
FAIL status and INFO otherwise, and carries every document-sink field with
the same value (plus its stack-trace field and the ISO timestamp). -/
theorem C9_search_sink_log_level (tn did st : String) (d : Int) (er stk : String)
    (ts : Timestamp) :
    ((index_log tn did st d er stk ts).log_level = "ERROR" ↔ st = "FAIL") ∧
    ((index_log tn did st d er stk ts).log_level = "INFO" ↔ ¬ st = "FAIL") ∧
    (index_log tn did st d er stk ts).test_name = (write_log tn did st d er ts).test_name ∧
    (index_log tn did st d er stk ts).device_id = (write_log tn did st d er ts).device_id ∧
    (index_log tn did st d er stk ts).status = (write_log tn did st d er ts).status ∧
    (index_log tn did st d er stk ts).duration = (write_log tn did st d er ts).duration ∧
    (index_log tn did st d er stk ts).error = (write_log tn did st d er ts).error ∧
    (index_log tn did st d er stk ts).stack_trace = stk ∧
    (index_log tn did st d er stk ts).timestamp = ts.iso := by
  by_cases h : st = "FAIL" <;> simp [index_log, write_log, h]

/-- Claim C10: the constructor of the runner accepts only the pg_db and
mongo_db keywords, the call in the reference entry point with es_db raises
TypeError before dispatching anything, and no runner operation ever
attempts an Elasticsearch index_log call. -/
theorem C10_runner_rejects_search_sink :
    mainRunnerInit = Except.error "__init__() got an unexpected keyword argument es_db" ∧
    asyncTestRunnerInit [("pg_db", DBRef.pg), ("mongo_db", DBRef.mongo)] =
      Except.ok { pg_db := some DBRef.pg, mongo_db := some DBRef.mongo } ∧
    (∀ (oracle : Nat → UnitOracle) (reqs : List (String × String)) (s : SinkState),
      mainDispatch oracle reqs s =
        Except.error "__init__() got an unexpected keyword argument es_db") ∧
    (∀ (cfg : RunnerConfig) (oracle : Nat → UnitOracle) (reqs : List (String × String))
        (s : SinkState) c,
      c ∈ (run_all cfg oracle reqs s).2.calls → c ∈ s.calls ∨ c.isEs = false) := by
  refine ⟨rfl, rfl, fun oracle reqs s => rfl, ?_⟩
  intro cfg oracle reqs s c h
  exact run_all_from_calls cfg oracle reqs 0 s c h

/-- Witness for C10: the only calls a concrete one-unit batch adds to an
empty trace are PostgreSQL and MongoDB calls, never Elasticsearch. -/
theorem C10_witness :
    (SinkCall.pgUpdateStatus "device_iphone_001" "RUNNING" ∈
      (run_all cfgPM (fun _ => oracleOK) [("performance_test", "device_iphone_001")] stateAvail).2.calls) ∧
    (SinkCall.pgUpdateStatus "device_iphone_001" "RUNNING" ∈ stateAvail.calls ∨
      (SinkCall.pgUpdateStatus "device_iphone_001" "RUNNING").isEs = false) :=
  ⟨by decide,
   C10_runner_rejects_search_sink.2.2.2 cfgPM (fun _ => oracleOK)
     [("performance_test", "device_iphone_001")] stateAvail
     (SinkCall.pgUpdateStatus "device_iphone_001" "RUNNING") (by decide)⟩

end Framework
